import Mathlib

/-!
Verification development for the `dark` graph editor server.

The subject is the RPC command handler `fn` registered at `/admin/api/rpc`
in `dark.py` (lines 27-85): it decodes a request `{cursor, command, args}`,
resolves the cursor against the in-memory `Graph`, dispatches on the
command string, projects the graph to a frontend representation, and then
pickles the graph to disk and immediately unpickles it back into
`self.graph` ("Roundtrip so we find bugs early").

`dark.py` is embedded statement by statement.  The modules it drives
(`graph`, `datastore`, `fields`) are not part of the provided sources, so
their operations are modelled from the spec where noted; the dispatch
logic, the evaluation order inside each branch, and the snapshot
round-trip come directly from `dark.py`.

Conventions of the embedding:
* JSON scalars are `Value` (null, number, string); an RPC `args` object is
  an association list from string keys to `Value`s, read in the order the
  Python code reads them (`args["k"]` raising `KeyError` becomes the
  `MalformedArgs` failure).
* Python objects owned by the graph are identified by their name key, so
  the interpreter's `cursor` variable is tracked as the `Option Value`
  naming the node it points at (`None` becomes `none`).
* A Python exception aborts the handler but leaves the already performed
  heap mutations in place, so the interpreter returns the (possibly
  partially mutated) graph next to the error.
-/

namespace Dark

/-- A JSON scalar value as it appears in the RPC request and in node
attributes (`x`, `y`, names are assigned straight from `args`). -/
inductive Value where
  | null
  | num (n : Int)
  | str (s : String)
  deriving DecidableEq

/-- Node role tags: plain function-call node, datastore, datasource,
datasink (the last two are created outside the RPC path). -/
inductive Role where
  | plain
  | datastore
  | datasource
  | datasink
  deriving DecidableEq

/-- Modelled from the spec: a `Field` of a datastore (module `fields` is
not among the sources).  A field carries its name and the type tag it was
created with via the field registry. -/
structure Field where
  name : Value
  type : Value
  deriving DecidableEq

/-- Modelled from the spec: a graph `Node` (module `graph` is not among
the sources).  A datastore is a node with role `datastore` additionally
owning an ordered field list and records; for other roles `fields` and
`records` stay empty. -/
structure Node where
  name : Value
  x : Value
  y : Value
  role : Role
  fields : List Field
  records : List (List (Value × Value))
  deriving DecidableEq

/-- First node with the given name in an ordered node table. -/
def findNode : List Node → Value → Option Node
  | [], _ => none
  | nd :: rest, m => if nd.name = m then some nd else findNode rest m

/-- Modelled from the spec: the `Graph` owns all nodes keyed by name; a
datastore is additionally tracked in a separate datastore index.  Python
dicts keep insertion order, so both indices are ordered lists; the
datastore index holds the same objects as the node index, which the
embedding renders as a list of names resolved through the node table. -/
structure Graph where
  nodes : List Node
  datastores : List Value
  deriving DecidableEq

/-- The empty graph (`graph.Graph()` at server start). -/
def Graph.empty : Graph := ⟨[], []⟩

/-- Name lookup in the node index. -/
def Graph.lookupNode (g : Graph) (m : Value) : Option Node :=
  findNode g.nodes m

/-- The error kinds of the command path.  `MalformedArgs` stands for the
`KeyError` of a missing `args` key, `UnknownNode` for the failure of
`Graph.get_node` on an absent name, `NotADatastore` for the `KeyError` of
`G.datastores[cursorname]` when the name is not in the datastore index,
`UnknownFieldType` for the `AttributeError` of `getattr(fields, typename)`,
`NoneNode` for the `AttributeError` raised by `node.x = ...` when
`get_node` returned `None` (a null `id`). -/
inductive Err where
  | InvalidCommand
  | MalformedArgs
  | UnknownNode
  | NotADatastore
  | DuplicateName
  | DuplicateFieldName
  | UnknownFieldType
  | NoneNode
  deriving DecidableEq

/-- Modelled from the spec: `Graph.get_node`.  A null name resolves to no
node (the command interpreter "resolves `cursor` to a Node (or leaves it
null)"); an absent name fails with `UnknownNode`. -/
def Graph.get_node (g : Graph) (m : Value) : Except Err (Option Node) :=
  if m = Value.null then .ok none
  else
    match g.lookupNode m with
    | some nd => .ok (some nd)
    | none => .error .UnknownNode

/-- Modelled from the spec: `Graph._add` / `addNode` inserts into the node
index and fails with `DuplicateName` if the name already exists. -/
def Graph.addNode (g : Graph) (nd : Node) : Except Err Graph :=
  match g.lookupNode nd.name with
  | some _ => .error .DuplicateName
  | none => .ok { g with nodes := g.nodes ++ [nd] }

/-- Modelled from the spec: `Graph.add_datastore` is `addNode` plus
insertion into the datastore index. -/
def Graph.add_datastore (g : Graph) (nd : Node) : Except Err Graph :=
  match g.addNode nd with
  | .error e => .error e
  | .ok g' => .ok { g' with datastores := g'.datastores ++ [nd.name] }

/-- In-place mutation of the node with the given name (`node.x = ...`
through a reference held in the graph's node table). -/
def Graph.updateNode (g : Graph) (m : Value) (f : Node → Node) : Graph :=
  { g with nodes := g.nodes.map fun nd => if nd.name = m then f nd else nd }

/-- Modelled from the spec: `Graph.getDatastore` fails with `UnknownNode`
if the name is absent and with `NotADatastore` if the named node is not a
datastore. -/
def Graph.getDatastore (g : Graph) (m : Value) : Except Err Node :=
  match g.lookupNode m with
  | none => .error .UnknownNode
  | some nd => if nd.role = Role.datastore then .ok nd else .error .NotADatastore

/-- Whether a field list already holds a field of the given name. -/
def hasFieldNamed : List Field → Value → Bool
  | [], _ => false
  | f :: rest, m => if f.name = m then true else hasFieldNamed rest m

/-- How many fields of the given name a field list holds. -/
def countFieldsNamed : List Field → Value → Nat
  | [], _ => 0
  | f :: rest, m =>
      (if f.name = m then 1 else 0) + countFieldsNamed rest m

/-- Modelled from the spec: `Datastore.add_field` appends the field,
failing with `DuplicateFieldName` when a field of that name exists. -/
def Node.add_field (nd : Node) (f : Field) : Except Err Node :=
  if hasFieldNamed nd.fields f.name then .error .DuplicateFieldName
  else .ok { nd with fields := nd.fields ++ [f] }

/-- Modelled from the spec: the field registry.  `getattr(fields,
typename)` resolves a type name to a field constructor and fails with
`UnknownFieldType` when it is not registered (a non-string type name
cannot be an attribute name and also fails). -/
def resolveFieldType (registry : List String) (typename : Value) : Except Err Unit :=
  match typename with
  | Value.str s => if s ∈ registry then .ok () else .error .UnknownFieldType
  | _ => .error .UnknownFieldType

/-- Well-formedness invariant of the graph: every name in the datastore
index resolves in the node index to a node with role `datastore`.  Every
graph reachable through the command path satisfies it. -/
def Graph.wf (g : Graph) : Prop :=
  ∀ c ∈ g.datastores, (g.lookupNode c).map Node.role = some Role.datastore

/-- Modelled from the spec: the wire representation produced by the
frontend projector (`G.to_frontend(cursor)`, `graph` module not among the
sources): all nodes with id, position and role, all datastores with their
ordered field list (name and type), and the cursor node's name when the
cursor is non-null. -/
structure Frontend where
  nodes : List (Value × Value × Value × Role)
  datastores : List (Value × List (Value × Value))
  cursor : Option Value
  deriving DecidableEq

/-- The field list of a datastore as the projector serializes it. -/
def fieldsOf : Option Node → List (Value × Value)
  | none => []
  | some nd => nd.fields.map fun f => (f.name, f.type)

/-- Modelled from the spec: `Graph.to_frontend` is a pure, total function
of the graph state and the cursor. -/
def Graph.to_frontend (g : Graph) (cursor : Option Value) : Frontend :=
  { nodes := g.nodes.map fun nd => (nd.name, nd.x, nd.y, nd.role)
  , datastores := g.datastores.map fun c => (c, fieldsOf (g.lookupNode c))
  , cursor := cursor }

/-- Modelled from the spec: the pickled form of the graph, a
self-describing tree of scalars and lists standing for the byte stream
`pickle.dump` writes to `dark.graph`. -/
inductive Pk where
  | pnull
  | pnum (n : Int)
  | pstr (s : String)
  | plist (xs : List Pk)

/-- Pickling a scalar value. -/
def encodeValue : Value → Pk
  | Value.null => Pk.pnull
  | Value.num n => Pk.pnum n
  | Value.str s => Pk.pstr s

/-- Unpickling a scalar value. -/
def decodeValue : Pk → Value
  | Pk.pnull => Value.null
  | Pk.pnum n => Value.num n
  | Pk.pstr s => Value.str s
  | Pk.plist _ => Value.null

/-- Pickling a role tag. -/
def encodeRole : Role → Pk
  | Role.plain => Pk.pnum 0
  | Role.datastore => Pk.pnum 1
  | Role.datasource => Pk.pnum 2
  | Role.datasink => Pk.pnum 3

/-- Unpickling a role tag. -/
def decodeRole : Pk → Role
  | Pk.pnum 1 => Role.datastore
  | Pk.pnum 2 => Role.datasource
  | Pk.pnum 3 => Role.datasink
  | _ => Role.plain

/-- Pickling a field. -/
def encodeField (f : Field) : Pk :=
  Pk.plist [encodeValue f.name, encodeValue f.type]

/-- Unpickling a field. -/
def decodeField : Pk → Field
  | Pk.plist [a, b] => ⟨decodeValue a, decodeValue b⟩
  | _ => ⟨Value.null, Value.null⟩

/-- Pickling one stored record (a mapping from field name to value). -/
def encodeRecord (rec : List (Value × Value)) : Pk :=
  Pk.plist (rec.map fun p => Pk.plist [encodeValue p.1, encodeValue p.2])

/-- Unpickling one stored record. -/
def decodeRecord : Pk → List (Value × Value)
  | Pk.plist xs =>
      xs.map fun p =>
        match p with
        | Pk.plist [a, b] => (decodeValue a, decodeValue b)
        | _ => (Value.null, Value.null)
  | _ => []

/-- Pickling a node. -/
def encodeNode (nd : Node) : Pk :=
  Pk.plist [encodeValue nd.name, encodeValue nd.x, encodeValue nd.y,
    encodeRole nd.role, Pk.plist (nd.fields.map encodeField),
    Pk.plist (nd.records.map encodeRecord)]

/-- Unpickling a node. -/
def decodeNode : Pk → Node
  | Pk.plist [a, b, c, rl, Pk.plist fs, Pk.plist rs] =>
      ⟨decodeValue a, decodeValue b, decodeValue c, decodeRole rl,
        fs.map decodeField, rs.map decodeRecord⟩
  | _ => ⟨Value.null, Value.null, Value.null, Role.plain, [], []⟩

/-- Modelled from the spec: `pickle.dump(G, open("dark.graph", "wb"))`
serializes the full graph, both indices included. -/
def commit (g : Graph) : Pk :=
  Pk.plist [Pk.plist (g.nodes.map encodeNode),
    Pk.plist (g.datastores.map encodeValue)]

/-- Modelled from the spec: `pickle.load` reconstructs the graph from the
snapshot. -/
def loadSnap : Pk → Graph
  | Pk.plist [Pk.plist ns, Pk.plist ds] => ⟨ns.map decodeNode, ds.map decodeValue⟩
  | _ => Graph.empty

/-- The RPC request envelope `{cursor, command, args}` after
`json.loads`: the args object has string keys and scalar values. -/
structure Request where
  cursor : Value
  command : String
  args : List (String × Value)

/-- `args[k]`: first binding of the key, `KeyError` when absent. -/
def lookupArg : List (String × Value) → String → Option Value
  | [], _ => none
  | (k, v) :: rest, k0 => if k = k0 then some v else lookupArg rest k0

/-- The command dispatch of `fn` (`dark.py` lines 37-72), embedded with
the source's evaluation order.  The result pairs the graph as the heap
leaves it (a Python exception does not undo prior attribute assignments)
with either the error or the cursor name handed to the projector. -/
def interp (registry : List String) (g : Graph) (r : Request) :
    Graph × Except Err (Option Value) :=
  match g.get_node r.cursor with
  | .error e => (g, .error e)
  | .ok _ =>
    let cursor0 : Option Value :=
      if r.cursor = Value.null then none else some r.cursor
    if r.command = "add_datastore" then
      match lookupArg r.args "name" with
      | none => (g, .error .MalformedArgs)
      | some namev =>
        match lookupArg r.args "x" with
        | none => (g, .error .MalformedArgs)
        | some xv =>
          match lookupArg r.args "y" with
          | none => (g, .error .MalformedArgs)
          | some yv =>
            match g.add_datastore ⟨namev, xv, yv, Role.datastore, [], []⟩ with
            | .error e => (g, .error e)
            | .ok g' => (g', .ok (some namev))
    else if r.command = "add_datastore_field" then
      if r.cursor ∈ g.datastores then
        match g.lookupNode r.cursor with
        | none => (g, .error .UnknownNode)
        | some ds =>
          match lookupArg r.args "name" with
          | none => (g, .error .MalformedArgs)
          | some fieldname =>
            match lookupArg r.args "type" with
            | none => (g, .error .MalformedArgs)
            | some typename =>
              match resolveFieldType registry typename with
              | .error e => (g, .error e)
              | .ok _ =>
                if hasFieldNamed ds.fields fieldname then
                  (g, .error .DuplicateFieldName)
                else
                  (g.updateNode r.cursor
                      (fun nd => { nd with fields := nd.fields ++ [⟨fieldname, typename⟩] }),
                    .ok (some r.cursor))
      else (g, .error .NotADatastore)
    else if r.command = "add_function_call" then
      match lookupArg r.args "name" with
      | none => (g, .error .MalformedArgs)
      | some namev =>
        match lookupArg r.args "x" with
        | none => (g, .error .MalformedArgs)
        | some xv =>
          match lookupArg r.args "y" with
          | none => (g, .error .MalformedArgs)
          | some yv =>
            match g.addNode ⟨namev, xv, yv, Role.plain, [], []⟩ with
            | .error e => (g, .error e)
            | .ok g' => (g', .ok (some namev))
    else if r.command = "update_position" then
      match lookupArg r.args "id" with
      | none => (g, .error .MalformedArgs)
      | some idv =>
        match g.get_node idv with
        | .error e => (g, .error e)
        | .ok none => (g, .error .NoneNode)
        | .ok (some _) =>
          match lookupArg r.args "x" with
          | none => (g, .error .MalformedArgs)
          | some xv =>
            let g1 := g.updateNode idv fun nd => { nd with x := xv }
            match lookupArg r.args "y" with
            | none => (g1, .error .MalformedArgs)
            | some yv =>
              (g1.updateNode idv fun nd => { nd with y := yv }, .ok cursor0)
    else if r.command = "load_initial_graph" then
      (g, .ok none)
    else
      (g, .error .InvalidCommand)

/-- The outcome of one request to `/admin/api/rpc`: the graph
`self.graph` holds afterwards, the snapshot written to `dark.graph` (none
when the command aborted before line 79), and the response or the
propagated exception. -/
structure RunResult where
  graph : Graph
  snap : Option Pk
  out : Except Err Frontend

/-- The full handler `fn` (`dark.py` lines 28-82): dispatch, then
projection of the mutated graph, then the pickle round-trip that replaces
`self.graph` with the freshly loaded copy. -/
def fn (registry : List String) (g : Graph) (r : Request) : RunResult :=
  match interp registry g r with
  | (g', .error e) => ⟨g', none, .error e⟩
  | (g', .ok cur) =>
      let snap := commit g'
      ⟨loadSnap snap, some snap, .ok (g'.to_frontend cur)⟩

/-- Graph states reachable from the empty graph by a sequence of
successful commands (every success immediately commits a snapshot). -/
inductive Reachable (registry : List String) : Graph → Prop where
  | empty : Reachable registry Graph.empty
  | step (g g' : Graph) (r : Request) (snap : Pk) (resp : Frontend) :
      Reachable registry g →
      fn registry g r = ⟨g', some snap, .ok resp⟩ →
      Reachable registry g'

theorem decodeValue_encodeValue (v : Value) : decodeValue (encodeValue v) = v := by
  cases v <;> rfl

theorem decodeRole_encodeRole (rl : Role) : decodeRole (encodeRole rl) = rl := by
  cases rl <;> rfl

theorem decodeField_encodeField (f : Field) : decodeField (encodeField f) = f := by
  cases f
  simp [encodeField, decodeField, decodeValue_encodeValue]

theorem decodeRecord_encodeRecord (rec : List (Value × Value)) :
    decodeRecord (encodeRecord rec) = rec := by
  induction rec with
  | nil => rfl
  | cons p rest ih =>
      cases p
      simp only [encodeRecord, List.map_cons, decodeRecord] at ih ⊢
      simp [decodeValue_encodeValue, ih]

theorem map_decodeField_encodeField (fs : List Field) :
    fs.map (decodeField ∘ encodeField) = fs := by
  induction fs with
  | nil => rfl
  | cons f rest ih => simp [decodeField_encodeField f, ih]

theorem map_decodeRecord_encodeRecord (rs : List (List (Value × Value))) :
    rs.map (decodeRecord ∘ encodeRecord) = rs := by
  induction rs with
  | nil => rfl
  | cons r rest ih => simp [decodeRecord_encodeRecord r, ih]

theorem decodeNode_encodeNode (nd : Node) : decodeNode (encodeNode nd) = nd := by
  cases nd
  simp [encodeNode, decodeNode, decodeValue_encodeValue, decodeRole_encodeRole,
    map_decodeField_encodeField, map_decodeRecord_encodeRecord]

theorem map_decodeNode_encodeNode (nds : List Node) :
    nds.map (decodeNode ∘ encodeNode) = nds := by
  induction nds with
  | nil => rfl
  | cons nd rest ih => simp [decodeNode_encodeNode nd, ih]

theorem map_decodeValue_encodeValue (vs : List Value) :
    vs.map (decodeValue ∘ encodeValue) = vs := by
  induction vs with
  | nil => rfl
  | cons v rest ih => simp [decodeValue_encodeValue v, ih]

theorem loadSnap_commit (g : Graph) : loadSnap (commit g) = g := by
  cases g
  simp [commit, loadSnap, map_decodeNode_encodeNode, map_decodeValue_encodeValue]

theorem findNode_map_ite (nds : List Node) (m k : Value) (f : Node → Node)
    (hf : ∀ nd, (f nd).name = nd.name) :
    findNode (nds.map fun nd => if nd.name = m then f nd else nd) k
      = (findNode nds k).map fun nd => if nd.name = m then f nd else nd := by
  induction nds with
  | nil => rfl
  | cons nd rest ih =>
      have hname : (if nd.name = m then f nd else nd).name = nd.name := by
        by_cases hm : nd.name = m <;> simp [hm, hf]
      by_cases hk : nd.name = k
      · simp only [List.map_cons, findNode, hname, if_pos hk, Option.map_some']
      · simp only [List.map_cons, findNode, hname, if_neg hk, ih]

theorem lookupNode_updateNode (g : Graph) (m k : Value) (f : Node → Node)
    (hf : ∀ nd, (f nd).name = nd.name) :
    (g.updateNode m f).lookupNode k
      = (g.lookupNode k).map fun nd => if nd.name = m then f nd else nd := by
  simp [Graph.updateNode, Graph.lookupNode, findNode_map_ite _ _ _ _ hf]

theorem findNode_append_right (nds : List Node) (nd : Node) (k : Value)
    (h : findNode nds k = none) :
    findNode (nds ++ [nd]) k = if nd.name = k then some nd else none := by
  induction nds with
  | nil => rfl
  | cons hd rest ih =>
      by_cases hk : hd.name = k
      · simp [findNode, hk] at h
      · simp [findNode, hk] at h ⊢
        exact ih h

theorem findNode_name (nds : List Node) (m : Value) (nd : Node)
    (h : findNode nds m = some nd) : nd.name = m := by
  induction nds with
  | nil => cases h
  | cons hd rest ih =>
      by_cases hm : hd.name = m
      · simp [findNode, hm] at h
        rw [← h]; exact hm
      · simp [findNode, hm] at h
        exact ih h

theorem get_node_ok_some (g : Graph) (m : Value) (nd : Node)
    (h : g.get_node m = .ok (some nd)) : g.lookupNode m = some nd := by
  unfold Graph.get_node at h
  by_cases hm : m = Value.null
  · simp [hm] at h
  · simp only [if_neg hm] at h
    cases hl : g.lookupNode m with
    | none => rw [hl] at h; cases h
    | some nd' => rw [hl] at h; cases h; rfl

theorem countFieldsNamed_append (fs1 fs2 : List Field) (m : Value) :
    countFieldsNamed (fs1 ++ fs2) m
      = countFieldsNamed fs1 m + countFieldsNamed fs2 m := by
  induction fs1 with
  | nil => simp [countFieldsNamed]
  | cons f rest ih => simp [countFieldsNamed, ih]; ring

theorem countFieldsNamed_eq_zero (fs : List Field) (m : Value)
    (h : hasFieldNamed fs m = false) : countFieldsNamed fs m = 0 := by
  induction fs with
  | nil => rfl
  | cons f rest ih =>
      by_cases hm : f.name = m
      · simp [hasFieldNamed, hm] at h
      · simp [hasFieldNamed, hm] at h
        simp [countFieldsNamed, hm, ih h]

/-- Claim C10: the handler resolves the request's cursor through
`Graph.get_node` before dispatching on the command string; when that
resolution fails, every command — the creation commands `add_datastore`
and `add_function_call` included — fails with the resolution's error,
the graph is untouched and no snapshot is written. -/
theorem C10_cursor_resolved_first (registry : List String) (g : Graph)
    (r : Request) (e : Err) (h : g.get_node r.cursor = .error e) :
    fn registry g r = ⟨g, none, .error e⟩ := by
  simp [fn, interp, h]

theorem C10_witness :
    fn [] Graph.empty
        ⟨Value.str "ghost", "add_datastore",
          [("name", Value.str "d"), ("x", Value.num 0), ("y", Value.num 0)]⟩
      = ⟨Graph.empty, none, .error .UnknownNode⟩ :=
  C10_cursor_resolved_first [] Graph.empty _ .UnknownNode rfl

theorem C3_counterexample :
    (fn [] Graph.empty ⟨Value.str "ghost", "bogus", []⟩).out
        = .error .UnknownNode ∧
      Err.UnknownNode ≠ Err.InvalidCommand :=
  ⟨rfl, by decide⟩

/-- Claim C3 (amended): for every request whose command string is not one
of the five recognized commands and whose cursor resolves (it is null or
names an existing node), the command fails with `InvalidCommand` and the
graph is left unmodified with no snapshot written; when the cursor itself
fails to resolve, the failure is `UnknownNode` instead. -/
theorem C3_invalid_command (registry : List String) (g : Graph) (r : Request)
    (copt : Option Node)
    (hres : g.get_node r.cursor = .ok copt)
    (h1 : r.command ≠ "add_datastore")
    (h2 : r.command ≠ "add_datastore_field")
    (h3 : r.command ≠ "add_function_call")
    (h4 : r.command ≠ "update_position")
    (h5 : r.command ≠ "load_initial_graph") :
    fn registry g r = ⟨g, none, .error .InvalidCommand⟩ := by
  simp [fn, interp, hres, h1, h2, h3, h4, h5]

theorem C3_witness :
    fn [] Graph.empty ⟨Value.null, "bogus", []⟩
      = ⟨Graph.empty, none, .error .InvalidCommand⟩ :=
  C3_invalid_command [] Graph.empty _ none rfl (by decide) (by decide)
    (by decide) (by decide) (by decide)

/-- Claim C4: a `load_initial_graph` request whose cursor resolves never
mutates the graph (the handler returns with `self.graph` equal to the
graph it started from), always produces the projector output of the
unchanged graph with a null cursor, and is idempotent: running it again
on the resulting state yields the identical result. -/
theorem C4_load_initial_graph (registry : List String) (g : Graph)
    (r : Request) (copt : Option Node)
    (hcmd : r.command = "load_initial_graph")
    (hres : g.get_node r.cursor = .ok copt) :
    fn registry g r = ⟨g, some (commit g), .ok (g.to_frontend none)⟩ ∧
    (g.to_frontend none).cursor = none ∧
    fn registry (fn registry g r).graph r = fn registry g r := by
  have hfn : fn registry g r = ⟨g, some (commit g), .ok (g.to_frontend none)⟩ := by
    simp [fn, interp, hcmd, hres, loadSnap_commit]
  exact ⟨hfn, rfl, by rw [hfn]; exact hfn⟩

theorem C4_witness :
    (fn [] Graph.empty ⟨Value.null, "load_initial_graph", []⟩
        = ⟨Graph.empty, some (commit Graph.empty), .ok (Graph.empty.to_frontend none)⟩) ∧
    (Graph.empty.to_frontend none).cursor = none ∧
    fn [] (fn [] Graph.empty ⟨Value.null, "load_initial_graph", []⟩).graph
        ⟨Value.null, "load_initial_graph", []⟩
      = fn [] Graph.empty ⟨Value.null, "load_initial_graph", []⟩ :=
  C4_load_initial_graph [] Graph.empty _ none rfl rfl

/-- Claim C2: for every graph reachable by a sequence of valid commands
from the empty graph, serializing it to the snapshot and immediately
deserializing (the `pickle.dump` / `pickle.load` pair replacing
`self.graph`) yields a graph structurally equal to the committed one:
same node set, positions, datastore index, field order and field types. -/
theorem C2_snapshot_round_trip (registry : List String) (g : Graph)
    (_reach : Reachable registry g) : loadSnap (commit g) = g :=
  loadSnap_commit g

def dsReq : Request :=
  ⟨Value.null, "add_datastore",
    [("name", Value.str "users"), ("x", Value.num 3), ("y", Value.num 4)]⟩

def dsGraph : Graph :=
  ⟨[⟨Value.str "users", Value.num 3, Value.num 4, Role.datastore, [], []⟩],
    [Value.str "users"]⟩

theorem C2_witness : loadSnap (commit dsGraph) = dsGraph :=
  C2_snapshot_round_trip [] dsGraph
    (Reachable.step Graph.empty dsGraph dsReq (commit dsGraph)
      (dsGraph.to_frontend (some (Value.str "users"))) Reachable.empty rfl)

def posGraph : Graph :=
  ⟨[⟨Value.str "n", Value.num 0, Value.num 0, Role.plain, [], []⟩], []⟩

def posReqNoY : Request :=
  ⟨Value.null, "update_position", [("id", Value.str "n"), ("x", Value.num 5)]⟩

theorem C1_counterexample :
    (fn [] posGraph posReqNoY).out = .error .MalformedArgs ∧
    (fn [] posGraph posReqNoY).snap = none ∧
    (fn [] posGraph posReqNoY).graph ≠ posGraph ∧
    (fn [] posGraph posReqNoY).graph
      = ⟨[⟨Value.str "n", Value.num 5, Value.num 0, Role.plain, [], []⟩], []⟩ :=
  ⟨rfl, rfl, by decide, by decide⟩

/-- Claim C1 (amended): an `update_position` request whose args lack the
key `y` while `id` names an existing node and `x` is present fails with
`MalformedArgs` and writes no snapshot, but the failure is not atomic:
the targeted node's `x` has already been overwritten with `args["x"]`
when the missing `y` aborts the command (`node.x = args["x"]` executes
before `args["y"]` raises). -/
theorem C1_update_position_not_atomic (registry : List String) (g : Graph)
    (r : Request) (copt : Option Node) (idv xv : Value) (nd : Node)
    (hcmd : r.command = "update_position")
    (hres : g.get_node r.cursor = .ok copt)
    (hid : lookupArg r.args "id" = some idv)
    (hnode : g.get_node idv = .ok (some nd))
    (hx : lookupArg r.args "x" = some xv)
    (hy : lookupArg r.args "y" = none) :
    fn registry g r
      = ⟨g.updateNode idv (fun n => { n with x := xv }), none,
          .error .MalformedArgs⟩ := by
  simp [fn, interp, hcmd, hres, hid, hnode, hx, hy]

theorem C1_witness :
    fn [] posGraph posReqNoY
      = ⟨posGraph.updateNode (Value.str "n") (fun n => { n with x := Value.num 5 }),
          none, .error .MalformedArgs⟩ :=
  C1_update_position_not_atomic [] posGraph posReqNoY none (Value.str "n")
    (Value.num 5) ⟨Value.str "n", Value.num 0, Value.num 0, Role.plain, [], []⟩
    rfl rfl rfl rfl rfl rfl

def posReqXY : Request :=
  ⟨Value.null, "update_position",
    [("id", Value.str "n"), ("x", Value.num 1), ("y", Value.num 2)]⟩

theorem C5_counterexample :
    (fn [] posGraph posReqXY).graph.lookupNode (Value.str "n")
        = some ⟨Value.str "n", Value.num 1, Value.num 2, Role.plain, [], []⟩ ∧
    (fn [] posGraph posReqXY).out
        = .ok ((⟨[⟨Value.str "n", Value.num 1, Value.num 2, Role.plain, [], []⟩],
            []⟩ : Graph).to_frontend none) ∧
    ((⟨[⟨Value.str "n", Value.num 1, Value.num 2, Role.plain, [], []⟩],
        []⟩ : Graph).to_frontend none).cursor = none ∧
    (none : Option Value) ≠ some (Value.str "n") :=
  ⟨by decide, rfl, rfl, by decide⟩

/-- The graph after a successful `update_position` of node `idv`: `x` is
assigned first, then `y`, each through the reference into the node
table. -/
def updatedPosGraph (g : Graph) (idv xv yv : Value) : Graph :=
  (g.updateNode idv fun n => { n with x := xv }).updateNode idv
    fun n => { n with y := yv }

/-- Claim C5 (amended): a successful `update_position` request overwrites
the `x` and `y` of the node named `args["id"]` in place, but the cursor
handed to the projector is the request's originally resolved cursor,
unchanged — it is the updated node only when the request's cursor already
named it (a null cursor stays null). -/
theorem C5_update_position_cursor (registry : List String) (g : Graph)
    (r : Request) (copt : Option Node) (idv xv yv : Value) (nd : Node)
    (hcmd : r.command = "update_position")
    (hres : g.get_node r.cursor = .ok copt)
    (hid : lookupArg r.args "id" = some idv)
    (hnode : g.get_node idv = .ok (some nd))
    (hx : lookupArg r.args "x" = some xv)
    (hy : lookupArg r.args "y" = some yv) :
    fn registry g r
      = ⟨updatedPosGraph g idv xv yv, some (commit (updatedPosGraph g idv xv yv)),
          .ok ((updatedPosGraph g idv xv yv).to_frontend
            (if r.cursor = Value.null then none else some r.cursor))⟩ ∧
    (updatedPosGraph g idv xv yv).lookupNode idv
      = some { nd with x := xv, y := yv } ∧
    ((updatedPosGraph g idv xv yv).to_frontend
        (if r.cursor = Value.null then none else some r.cursor)).cursor
      = (if r.cursor = Value.null then none else some r.cursor) := by
  have hl : g.lookupNode idv = some nd := get_node_ok_some _ _ _ hnode
  have hnm : nd.name = idv := findNode_name _ _ _ hl
  have h1 : (g.updateNode idv fun n => { n with x := xv }).lookupNode idv
      = some { nd with x := xv } := by
    rw [lookupNode_updateNode g idv idv (fun n => { n with x := xv })
      (fun n => rfl), hl]
    simp [hnm]
  have h2 : (updatedPosGraph g idv xv yv).lookupNode idv
      = some { nd with x := xv, y := yv } := by
    unfold updatedPosGraph
    rw [lookupNode_updateNode _ idv idv (fun n => { n with y := yv })
      (fun n => rfl), h1]
    simp [hnm]
  refine ⟨?_, h2, rfl⟩
  simp [fn, interp, hcmd, hres, hid, hnode, hx, hy, updatedPosGraph,
    loadSnap_commit]

theorem C5_witness :
    (fn [] posGraph posReqXY
        = ⟨updatedPosGraph posGraph (Value.str "n") (Value.num 1) (Value.num 2),
            some (commit (updatedPosGraph posGraph (Value.str "n") (Value.num 1)
              (Value.num 2))),
            .ok ((updatedPosGraph posGraph (Value.str "n") (Value.num 1)
                (Value.num 2)).to_frontend
              (if posReqXY.cursor = Value.null then none else some posReqXY.cursor))⟩) ∧
    (updatedPosGraph posGraph (Value.str "n") (Value.num 1)
        (Value.num 2)).lookupNode (Value.str "n")
      = some ⟨Value.str "n", Value.num 1, Value.num 2, Role.plain, [], []⟩ ∧
    ((updatedPosGraph posGraph (Value.str "n") (Value.num 1)
        (Value.num 2)).to_frontend
          (if posReqXY.cursor = Value.null then none else some posReqXY.cursor)).cursor
      = (if posReqXY.cursor = Value.null then none else some posReqXY.cursor) :=
  C5_update_position_cursor [] posGraph posReqXY none (Value.str "n")
    (Value.num 1) (Value.num 2)
    ⟨Value.str "n", Value.num 0, Value.num 0, Role.plain, [], []⟩
    rfl rfl rfl rfl rfl rfl

/-- Claim C6: an `add_datastore_field` request whose cursor names an
existing plain (non-datastore) node of a well-formed graph fails with
`NotADatastore` (the `KeyError` of `G.datastores[cursorname]`), writes no
snapshot, and leaves the graph — node index and datastore index — exactly
unchanged. -/
theorem C6_not_a_datastore (registry : List String) (g : Graph)
    (r : Request) (nd : Node)
    (hcmd : r.command = "add_datastore_field")
    (hwf : g.wf)
    (hres : g.get_node r.cursor = .ok (some nd))
    (hrole : nd.role = Role.plain) :
    fn registry g r = ⟨g, none, .error .NotADatastore⟩ := by
  have hl : g.lookupNode r.cursor = some nd := get_node_ok_some _ _ _ hres
  have hmem : r.cursor ∉ g.datastores := by
    intro hmem
    have hds := hwf r.cursor hmem
    rw [hl] at hds
    simp at hds
    rw [hrole] at hds
    exact Role.noConfusion hds
  simp [fn, interp, hcmd, hres, hmem]

def mixedGraph : Graph :=
  ⟨[⟨Value.str "n", Value.num 0, Value.num 0, Role.plain, [], []⟩,
    ⟨Value.str "d", Value.num 1, Value.num 1, Role.datastore, [], []⟩],
    [Value.str "d"]⟩

theorem C6_witness :
    fn [] mixedGraph ⟨Value.str "n", "add_datastore_field",
        [("name", Value.str "title"), ("type", Value.str "Text")]⟩
      = ⟨mixedGraph, none, .error .NotADatastore⟩ :=
  C6_not_a_datastore [] mixedGraph _
    ⟨Value.str "n", Value.num 0, Value.num 0, Role.plain, [], []⟩
    rfl (by unfold Graph.wf; decide) rfl rfl

/-- The graph after a successful `add_datastore` of `name` at `(x, y)`:
the fresh zero-field datastore is appended to the node index and its name
to the datastore index. -/
def addDsResult (g : Graph) (namev xv yv : Value) : Graph :=
  ⟨g.nodes ++ [⟨namev, xv, yv, Role.datastore, [], []⟩],
    g.datastores ++ [namev]⟩

/-- Claim C7: a successful `add_datastore` request with args `name`, `x`,
`y` creates a datastore with that name at `(x, y)`, registers it in both
graph indices, hands the projector the new datastore as cursor, and
`getDatastore(name)` on the resulting graph returns a datastore with zero
fields and the given coordinates. -/
theorem C7_add_datastore (registry : List String) (g : Graph) (r : Request)
    (copt : Option Node) (namev xv yv : Value)
    (hcmd : r.command = "add_datastore")
    (hres : g.get_node r.cursor = .ok copt)
    (hname : lookupArg r.args "name" = some namev)
    (hx : lookupArg r.args "x" = some xv)
    (hy : lookupArg r.args "y" = some yv)
    (hfresh : g.lookupNode namev = none) :
    fn registry g r
      = ⟨addDsResult g namev xv yv, some (commit (addDsResult g namev xv yv)),
          .ok ((addDsResult g namev xv yv).to_frontend (some namev))⟩ ∧
    (addDsResult g namev xv yv).getDatastore namev
      = .ok ⟨namev, xv, yv, Role.datastore, [], []⟩ ∧
    ((addDsResult g namev xv yv).to_frontend (some namev)).cursor
      = some namev := by
  have h2 : (addDsResult g namev xv yv).lookupNode namev
      = some ⟨namev, xv, yv, Role.datastore, [], []⟩ := by
    unfold addDsResult Graph.lookupNode
    rw [findNode_append_right _ _ _ hfresh]
    simp
  refine ⟨?_, ?_, rfl⟩
  · simp [fn, interp, hcmd, hres, hname, hx, hy, Graph.add_datastore,
      Graph.addNode, hfresh, addDsResult, loadSnap_commit]
  · simp [Graph.getDatastore, h2]

theorem C7_witness :
    (fn [] Graph.empty dsReq
        = ⟨addDsResult Graph.empty (Value.str "users") (Value.num 3) (Value.num 4),
            some (commit (addDsResult Graph.empty (Value.str "users") (Value.num 3)
              (Value.num 4))),
            .ok ((addDsResult Graph.empty (Value.str "users") (Value.num 3)
              (Value.num 4)).to_frontend (some (Value.str "users")))⟩) ∧
    (addDsResult Graph.empty (Value.str "users") (Value.num 3)
        (Value.num 4)).getDatastore (Value.str "users")
      = .ok ⟨Value.str "users", Value.num 3, Value.num 4, Role.datastore, [], []⟩ ∧
    ((addDsResult Graph.empty (Value.str "users") (Value.num 3)
        (Value.num 4)).to_frontend (some (Value.str "users"))).cursor
      = some (Value.str "users") :=
  C7_add_datastore [] Graph.empty dsReq none (Value.str "users") (Value.num 3)
    (Value.num 4) rfl rfl rfl rfl rfl rfl

theorem datastores_updateNode (g : Graph) (m : Value) (f : Node → Node) :
    (g.updateNode m f).datastores = g.datastores := rfl

theorem hasFieldNamed_append (fs1 fs2 : List Field) (m : Value) :
    hasFieldNamed (fs1 ++ fs2) m = (hasFieldNamed fs1 m || hasFieldNamed fs2 m) := by
  induction fs1 with
  | nil => simp [hasFieldNamed]
  | cons f rest ih =>
      by_cases hm : f.name = m
      · simp [hasFieldNamed, hm]
      · simp [hasFieldNamed, hm, ih]

/-- Claim C8: adding two fields of the same name to the same datastore:
the first `add_datastore_field` succeeds and appends the field, the
second fails with `DuplicateFieldName` leaving the graph as the first
command left it, and the datastore then holds exactly one field of that
name. -/
theorem C8_duplicate_field_name (registry : List String) (g : Graph)
    (r1 r2 : Request) (c fv tv1 tv2 : Value) (copt : Option Node) (nd : Node)
    (hc1 : r1.cursor = c) (hc2 : r2.cursor = c)
    (hcmd1 : r1.command = "add_datastore_field")
    (hcmd2 : r2.command = "add_datastore_field")
    (hres : g.get_node c = .ok copt)
    (hmem : c ∈ g.datastores)
    (hl : g.lookupNode c = some nd)
    (hname1 : lookupArg r1.args "name" = some fv)
    (htype1 : lookupArg r1.args "type" = some tv1)
    (hreg1 : resolveFieldType registry tv1 = .ok ())
    (hname2 : lookupArg r2.args "name" = some fv)
    (htype2 : lookupArg r2.args "type" = some tv2)
    (hreg2 : resolveFieldType registry tv2 = .ok ())
    (hnodup : hasFieldNamed nd.fields fv = false) :
    fn registry g r1
        = ⟨g.updateNode c (fun n => { n with fields := n.fields ++ [⟨fv, tv1⟩] }),
            some (commit (g.updateNode c
              fun n => { n with fields := n.fields ++ [⟨fv, tv1⟩] })),
            .ok ((g.updateNode c
              fun n => { n with fields := n.fields ++ [⟨fv, tv1⟩] }).to_frontend
                (some c))⟩ ∧
    fn registry (g.updateNode c
          fun n => { n with fields := n.fields ++ [⟨fv, tv1⟩] }) r2
        = ⟨g.updateNode c fun n => { n with fields := n.fields ++ [⟨fv, tv1⟩] },
            none, .error .DuplicateFieldName⟩ ∧
    ((g.updateNode c
          fun n => { n with fields := n.fields ++ [⟨fv, tv1⟩] }).lookupNode c).map
        (fun n => countFieldsNamed n.fields fv) = some 1 := by
  have hnm : nd.name = c := findNode_name _ _ _ hl
  have hl1 : (g.updateNode c
        fun n => { n with fields := n.fields ++ [⟨fv, tv1⟩] }).lookupNode c
      = some { nd with fields := nd.fields ++ [⟨fv, tv1⟩] } := by
    rw [lookupNode_updateNode g c c
      (fun n => { n with fields := n.fields ++ [⟨fv, tv1⟩] }) (fun n => rfl), hl]
    simp [hnm]
  have hget1 : (g.updateNode c
        fun n => { n with fields := n.fields ++ [⟨fv, tv1⟩] }).get_node c
      = .ok (if c = Value.null then none
          else some { nd with fields := nd.fields ++ [⟨fv, tv1⟩] }) := by
    unfold Graph.get_node
    by_cases hnull : c = Value.null
    · simp [hnull]
    · simp [hnull, hl1]
  have hdup1 : hasFieldNamed (nd.fields ++ [⟨fv, tv1⟩]) fv = true := by
    simp [hasFieldNamed_append, hasFieldNamed]
  refine ⟨?_, ?_, ?_⟩
  · simp [fn, interp, hc1, hcmd1, hres, hmem, hl, hname1, htype1, hreg1,
      hnodup, loadSnap_commit]
  · simp [fn, interp, hc2, hcmd2, hget1, datastores_updateNode, hmem, hl1,
      hname2, htype2, hreg2, hdup1]
  · rw [hl1]
    simp [countFieldsNamed_append, countFieldsNamed_eq_zero _ _ hnodup,
      countFieldsNamed]

def oneDsGraph : Graph :=
  ⟨[⟨Value.str "d", Value.num 1, Value.num 1, Role.datastore, [], []⟩],
    [Value.str "d"]⟩

def fieldReq : Request :=
  ⟨Value.str "d", "add_datastore_field",
    [("name", Value.str "title"), ("type", Value.str "Text")]⟩

theorem C8_witness :
    (fn ["Text"] oneDsGraph fieldReq
        = ⟨oneDsGraph.updateNode (Value.str "d")
              (fun n => { n with fields := n.fields
                ++ [⟨Value.str "title", Value.str "Text"⟩] }),
            some (commit (oneDsGraph.updateNode (Value.str "d")
              fun n => { n with fields := n.fields
                ++ [⟨Value.str "title", Value.str "Text"⟩] })),
            .ok ((oneDsGraph.updateNode (Value.str "d")
              fun n => { n with fields := n.fields
                ++ [⟨Value.str "title", Value.str "Text"⟩] }).to_frontend
                  (some (Value.str "d")))⟩) ∧
    fn ["Text"] (oneDsGraph.updateNode (Value.str "d")
          fun n => { n with fields := n.fields
            ++ [⟨Value.str "title", Value.str "Text"⟩] }) fieldReq
        = ⟨oneDsGraph.updateNode (Value.str "d")
            (fun n => { n with fields := n.fields
              ++ [⟨Value.str "title", Value.str "Text"⟩] }),
            none, .error .DuplicateFieldName⟩ ∧
    ((oneDsGraph.updateNode (Value.str "d")
          fun n => { n with fields := n.fields
            ++ [⟨Value.str "title", Value.str "Text"⟩] }).lookupNode
        (Value.str "d")).map
        (fun n => countFieldsNamed n.fields (Value.str "title")) = some 1 :=
  C8_duplicate_field_name ["Text"] oneDsGraph fieldReq fieldReq
    (Value.str "d") (Value.str "title") (Value.str "Text") (Value.str "Text")
    (some ⟨Value.str "d", Value.num 1, Value.num 1, Role.datastore, [], []⟩)
    ⟨Value.str "d", Value.num 1, Value.num 1, Role.datastore, [], []⟩
    rfl rfl rfl rfl rfl (by decide) rfl rfl rfl rfl rfl rfl rfl rfl

/-- Claim C9: an `add_datastore_field` request against an existing
datastore whose `type` argument names a field type not present in the
field registry fails with `UnknownFieldType` (the `AttributeError` of
`getattr(fields, typename)`), writes no snapshot, and appends no field:
the graph is exactly unchanged. -/
theorem C9_unknown_field_type (registry : List String) (g : Graph)
    (r : Request) (copt : Option Node) (nd : Node) (fv : Value) (s : String)
    (hcmd : r.command = "add_datastore_field")
    (hres : g.get_node r.cursor = .ok copt)
    (hmem : r.cursor ∈ g.datastores)
    (hl : g.lookupNode r.cursor = some nd)
    (hname : lookupArg r.args "name" = some fv)
    (htype : lookupArg r.args "type" = some (Value.str s))
    (hs : s ∉ registry) :
    fn registry g r = ⟨g, none, .error .UnknownFieldType⟩ := by
  have hreg : resolveFieldType registry (Value.str s)
      = .error .UnknownFieldType := by
    simp [resolveFieldType, hs]
  simp [fn, interp, hcmd, hres, hmem, hl, hname, htype, hreg]

theorem C9_witness :
    fn ["Text"] oneDsGraph ⟨Value.str "d", "add_datastore_field",
        [("name", Value.str "title"), ("type", Value.str "Nope")]⟩
      = ⟨oneDsGraph, none, .error .UnknownFieldType⟩ :=
  C9_unknown_field_type ["Text"] oneDsGraph _
    (some ⟨Value.str "d", Value.num 1, Value.num 1, Role.datastore, [], []⟩)
    ⟨Value.str "d", Value.num 1, Value.num 1, Role.datastore, [], []⟩
    (Value.str "title") "Nope"
    rfl rfl (by decide) rfl rfl rfl (by decide)

end Dark
